import Mathlib

/-!
Shallow embedding of the binance-rs client core, translated from the
repository sources:

* `src/util.rs` — canonical query-string building and signed-request
  construction (`build_request`, `build_signed_request_custom`,
  `get_timestamp`);
* `src/client.rs` — request signing (`Client::sign_request`) and HTTP
  response classification (`Client::handler`, `Client::bytes_handler`);
* `src/spot/general.rs` — the TTL-bounded exchange-info cache
  (`has_cache`, `exchange_info`, `get_symbol_info`);
* `src/model.rs`, `src/spot/model.rs` — the wire DTOs of the websocket
  events, with their serde field renames;
* `src/websockets.rs`, `src/futures/websockets.rs` — the untagged event
  decoders (`Events`, `handle_msg`) and the frame loop (`recv`).

JSON values are modelled by an inductive `Json`; serde's derived
deserializers for the event structs are translated field by field
(required keys, their renamed wire names, and their value kinds;
`#[serde(skip)]` fields are not read and are filled with their default,
exactly as serde does).  Rust `u64`/`i64` become `Nat`/`Int`,
`BTreeMap<String,String>` becomes a key-sorted association list, and the
HMAC-SHA256 signing primitive is implemented concretely on byte lists.
-/

namespace Binance

/-! ### JSON values (serde_json::Value) -/

/-- A JSON value, as `serde_json::Value`.  Numbers are restricted to
integers, which covers every numeric field of the wire shapes involved
(`u64`/`i64` timestamps, ids and counts). -/
inductive Json where
  | str (s : String)
  | num (n : Int)
  | bool (b : Bool)
  | null
  | arr (xs : List Json)
  | obj (fields : List (String × Json))
deriving Repr

/-- `serde_json::Value::get(key)`: field lookup on an object, `None` on
every other value. -/
def Json.get? : Json → String → Option Json
  | .obj fields, key => (fields.find? (fun f => f.1 == key)).map (·.2)
  | _, _ => none

/-! ### Byte-wise string order and ASCII uppercasing

Rust's `BTreeMap<String, _>` iterates keys in byte-wise lexicographic
order; UTF-8 byte order agrees with code-point order, so we order
strings by code points.  `str::to_uppercase` is modelled on the ASCII
range, which covers exchange symbol names. -/

def lexLt : List Char → List Char → Bool
  | [], [] => false
  | [], _ :: _ => true
  | _ :: _, [] => false
  | a :: as, b :: bs => if a < b then true else if b < a then false else lexLt as bs

def strLt (a b : String) : Bool := lexLt a.data b.data

def strToUpper (s : String) : String := ⟨s.data.map Char.toUpper⟩

/-! ### util.rs -/

/-- `std::time::Duration`: seconds and sub-second nanoseconds. -/
structure Duration where
  secs : Nat
  nanos : Nat
deriving Repr, DecidableEq

/-- `std::time::SystemTime`, represented by its (fallible) duration since
`UNIX_EPOCH`; `none` models a clock before the epoch, for which
`duration_since` returns `Err(SystemTimeError)`. -/
structure SystemTime where
  duration_since_epoch : Option Duration
deriving Repr, DecidableEq

/-- `util::get_timestamp`: milliseconds since epoch,
`secs * 1000 + nanos / 1_000_000`. -/
def get_timestamp (start : SystemTime) : Except String Nat :=
  match start.duration_since_epoch with
  | some since_epoch => .ok (since_epoch.secs * 1000 + since_epoch.nanos / 1000000)
  | none => .error "SystemTimeError"

/-- A `BTreeMap<String, String>` is represented by its sorted
association list; `insert` keeps the list sorted by key and replaces an
existing binding. -/
def insertSorted (l : List (String × String)) (kv : String × String) :
    List (String × String) :=
  match l with
  | [] => [kv]
  | (k, v) :: rest =>
    if strLt kv.1 k then kv :: (k, v) :: rest
    else if kv.1 == k then (kv.1, kv.2) :: rest
    else (k, v) :: insertSorted rest kv

/-- `util::build_request`: serialize the ordered map by pushing
`"{key}={value}&"` for each entry (in map order) and popping the final
separator character. -/
def build_request (parameters : List (String × String)) : String :=
  let request := parameters.foldl
    (fun acc kv => acc ++ kv.1 ++ "=" ++ kv.2 ++ "&") ""
  ⟨request.data.dropLast⟩

/-- `util::build_signed_request_custom`: inject `recvWindow` (only when
positive) and `timestamp`, then delegate to `build_request`; fail when
the time source cannot produce a duration since epoch. -/
def build_signed_request_custom (parameters : List (String × String))
    (recv_window : Nat) (start : SystemTime) : Except String String :=
  let parameters :=
    if recv_window > 0 then
      insertSorted parameters ("recvWindow", toString recv_window)
    else parameters
  match get_timestamp start with
  | .ok timestamp =>
      .ok (build_request (insertSorted parameters ("timestamp", toString timestamp)))
  | .error _ => .error "Failed to get timestamp"

/-! ### HMAC-SHA256 (the `hmac`/`sha2` crates) and hex encoding

Bytes are natural numbers below 256; 32-bit words are naturals reduced
modulo `2^32`. -/

def w32 (x : Nat) : Nat := x % 4294967296

def rotr32 (x n : Nat) : Nat := w32 ((x >>> n) ||| (x <<< (32 - n)))

def bsig0 (x : Nat) : Nat := rotr32 x 2 ^^^ rotr32 x 13 ^^^ rotr32 x 22

def bsig1 (x : Nat) : Nat := rotr32 x 6 ^^^ rotr32 x 11 ^^^ rotr32 x 25

def ssig0 (x : Nat) : Nat := rotr32 x 7 ^^^ rotr32 x 18 ^^^ (x >>> 3)

def ssig1 (x : Nat) : Nat := rotr32 x 17 ^^^ rotr32 x 19 ^^^ (x >>> 10)

def chFn (x y z : Nat) : Nat := (x &&& y) ^^^ ((x ^^^ 4294967295) &&& z)

def majFn (x y z : Nat) : Nat := (x &&& y) ^^^ (x &&& z) ^^^ (y &&& z)

def sha256K : List Nat :=
  [1116352408, 1899447441, 3049323471, 3921009573, 961987163,
   1508970993, 2453635748, 2870763221, 3624381080, 310598401,
   607225278, 1426881987, 1925078388, 2162078206, 2614888103,
   3248222580, 3835390401, 4022224774, 264347078, 604807628,
   770255983, 1249150122, 1555081692, 1996064986, 2554220882,
   2821834349, 2952996808, 3210313671, 3336571891, 3584528711,
   113926993, 338241895, 666307205, 773529912, 1294757372,
   1396182291, 1695183700, 1986661051, 2177026350, 2456956037,
   2730485921, 2820302411, 3259730800, 3345764771, 3516065817,
   3600352804, 4094571909, 275423344, 430227734, 506948616,
   659060556, 883997877, 958139571, 1322822218, 1537002063,
   1747873779, 1955562222, 2024104815, 2227730452, 2361852424,
   2428436474, 2756734187, 3204031479, 3329325298]

/-- Working state of the SHA-256 compression function. -/
structure Hash8 where
  a : Nat
  b : Nat
  c : Nat
  d : Nat
  e : Nat
  f : Nat
  g : Nat
  h : Nat
deriving Repr

def sha256Init : Hash8 :=
  ⟨1779033703, 3144134277, 1013904242, 2773480762,
   1359893119, 2600822924, 528734635, 1541459225⟩

def sha256Round (st : Hash8) (kw : Nat × Nat) : Hash8 :=
  let t1 := w32 (st.h + bsig1 st.e + chFn st.e st.f st.g + kw.1 + kw.2)
  let t2 := w32 (bsig0 st.a + majFn st.a st.b st.c)
  ⟨w32 (t1 + t2), st.a, st.b, st.c, w32 (st.d + t1), st.e, st.f, st.g⟩

/-- Extend the 16-word block to the 64-word message schedule. -/
def sha256Schedule (rounds : Nat) (w : Array Nat) : Array Nat :=
  match rounds with
  | 0 => w
  | n + 1 =>
    let s := w.size
    let next := w32 (ssig1 (w.getD (s - 2) 0) + w.getD (s - 7) 0 +
      ssig0 (w.getD (s - 15) 0) + w.getD (s - 16) 0)
    sha256Schedule n (w.push next)

def sha256Compress (h : Hash8) (block : List Nat) : Hash8 :=
  let w := (sha256Schedule 48 (List.toArray block)).toList
  let st := (sha256K.zip w).foldl sha256Round h
  ⟨w32 (h.a + st.a), w32 (h.b + st.b), w32 (h.c + st.c), w32 (h.d + st.d),
   w32 (h.e + st.e), w32 (h.f + st.f), w32 (h.g + st.g), w32 (h.h + st.h)⟩

/-- Big-endian 4-byte words from a byte list. -/
def bytesToWords : List Nat → List Nat
  | b0 :: b1 :: b2 :: b3 :: rest =>
    (b0 * 16777216 + b1 * 65536 + b2 * 256 + b3) :: bytesToWords rest
  | _ => []

/-- Split a byte list into 64-byte blocks. -/
def toBlocks (l : List Nat) : List (List Nat) :=
  match l with
  | [] => []
  | x :: xs => ((x :: xs).take 64) :: toBlocks ((x :: xs).drop 64)
termination_by l.length
decreasing_by simp [List.drop]; omega

def be64 (n : Nat) : List Nat :=
  [n >>> 56 % 256, n >>> 48 % 256, n >>> 40 % 256, n >>> 32 % 256,
   n >>> 24 % 256, n >>> 16 % 256, n >>> 8 % 256, n % 256]

def wordBytes (n : Nat) : List Nat :=
  [n >>> 24 % 256, n >>> 16 % 256, n >>> 8 % 256, n % 256]

/-- SHA-256 padding: a `0x80` byte, zeros to 56 mod 64, then the 64-bit
big-endian bit length. -/
def padMessage (msg : List Nat) : List Nat :=
  let zeros := (120 - (msg.length + 1) % 64) % 64
  msg ++ [128] ++ List.replicate zeros 0 ++ be64 (8 * msg.length)

def sha256 (msg : List Nat) : List Nat :=
  let blocks := (toBlocks (padMessage msg)).map bytesToWords
  let h := blocks.foldl sha256Compress sha256Init
  wordBytes h.a ++ wordBytes h.b ++ wordBytes h.c ++ wordBytes h.d ++
    wordBytes h.e ++ wordBytes h.f ++ wordBytes h.g ++ wordBytes h.h

/-- HMAC-SHA256 (RFC 2104) with a 64-byte block size, as
`Hmac::<Sha256>` of the `hmac` crate. -/
def hmacSha256 (key msg : List Nat) : List Nat :=
  let key := if key.length > 64 then sha256 key else key
  let key := key ++ List.replicate (64 - key.length) 0
  let ipad := key.map (fun b => b ^^^ 54)
  let opad := key.map (fun b => b ^^^ 92)
  sha256 (opad ++ sha256 (ipad ++ msg))

def hexDigitChar (n : Nat) : Char := "0123456789abcdef".data.getD n '0'

/-- `hex::encode`: lowercase hex of a byte sequence. -/
def hexEncode (bytes : List Nat) : String :=
  ⟨bytes.foldr (fun b acc => hexDigitChar (b / 16) :: hexDigitChar (b % 16) :: acc) []⟩

/-- UTF-8 bytes of a string (`str::as_bytes`). -/
def utf8Bytes (s : String) : List Nat := s.toUTF8.toList.map (fun b => b.toNat)

/-! ### client.rs — Client and request signing -/

/-- `client::Client` (the `reqwest` transport handle is not part of the
pure state). -/
structure Client where
  api_key : String
  secret_key : String
  host : String
deriving Repr

/-- `Client::sign_request`: the endpoint's path (a full URL when it
starts with `http`) plus the query string with the HMAC-SHA256 hex
signature appended.  Endpoints are represented by the string
`String::from(endpoint)` resolves to, since that mapping is total and
pure. -/
def sign_request (c : Client) (endpoint : String) (request : Option String) : String :=
  let host := if endpoint.startsWith "http" then "" else c.host
  match request with
  | some request =>
    let signature := hexEncode (hmacSha256 (utf8Bytes c.secret_key) (utf8Bytes request))
    let request_body := request ++ "&signature=" ++ signature
    host ++ endpoint ++ "?" ++ request_body
  | none =>
    let signature := hexEncode (hmacSha256 (utf8Bytes c.secret_key) (utf8Bytes ""))
    let request_body := "" ++ "&signature=" ++ signature
    host ++ endpoint ++ "?" ++ request_body

/-! ### client.rs — response classification -/

/-- Modelled from the spec: the structured HTTP-400 error body
(`errors::BinanceContentError`; `src/errors.rs` is not under `src/`).
Section 6 of the spec gives the wire shape
`JSON: code (signed integer), msg (string)`. -/
structure BinanceContentError where
  code : Int
  msg : String
deriving Repr, DecidableEq

/-- Deserializing the HTTP-400 body into `BinanceContentError`: a JSON
object with a numeric `code` and a string `msg` (extra fields are
ignored, as serde does by default). -/
def parseContentError (j : Json) : Option BinanceContentError :=
  match j.get? "code", j.get? "msg" with
  | some (.num code), some (.str msg) => some ⟨code, msg⟩
  | _, _ => none

/-- Modelled from the spec: the error taxonomy (`errors::ErrorKind`;
`src/errors.rs` is not under `src/`).  `tooManyRequest` is
`ErrorKind::TooManyRequest`, `binanceError` is
`ErrorKind::BinanceError(BinanceContentError)`, `message` is a plain
`error_chain` string error (what `bail!("...")` produces), and
`jsonDecode` is the error `?` produces when a response body fails to
deserialize. -/
inductive ApiError where
  | tooManyRequest
  | binanceError (e : BinanceContentError)
  | message (s : String)
  | jsonDecode (s : String)
deriving Repr, DecidableEq

/-- Outcome of `Client::handler`: a decoded value, a typed error, or a
process abort — the `assert!` in the source is a panic, not an error
return, so it is a distinct outcome. -/
inductive HandlerResult (α : Type) where
  | ok (a : α)
  | err (e : ApiError)
  | panicked (s : String)
deriving Repr, DecidableEq

/-- `Client::handler` as a function of the response status and body.
Mirrors the source's control flow: the used-weight header read is
observability only and returns nothing; then the `TOO_MANY_REQUESTS`
check, then the `IM_A_TEAPOT` assertion, then the status match.
`decode` stands for `response.json::<T>()` applied to the body. -/
def handler {α : Type} (decode : Json → Option α) (status : Nat) (body : Json) :
    HandlerResult α :=
  if status = 429 then .err .tooManyRequest
  else if status = 418 then .panicked "We were told we are a teapot"
  else if status = 200 then
    match decode body with
    | some value => .ok value
    | none => .err (.jsonDecode "serde_json")
  else if status = 500 then .err (.message "Internal Server Error")
  else if status = 503 then .err (.message "Service Unavailable")
  else if status = 401 then .err (.message "Unauthorized")
  else if status = 400 then
    match parseContentError body with
    | some e => .err (.binanceError e)
    | none => .err (.jsonDecode "serde_json")
  else .err (.message ("Received response: " ++ toString status))

/-- `Client::bytes_handler`: identical classification, but a 200 returns
the raw body bytes instead of running the JSON decoder. -/
def bytes_handler (status : Nat) (body : Json) (raw : List Nat) :
    HandlerResult (List Nat) :=
  if status = 429 then .err .tooManyRequest
  else if status = 418 then .panicked "We were told we are a teapot"
  else if status = 200 then .ok raw
  else if status = 500 then .err (.message "Internal Server Error")
  else if status = 503 then .err (.message "Service Unavailable")
  else if status = 401 then .err (.message "Unauthorized")
  else if status = 400 then
    match parseContentError body with
    | some e => .err (.binanceError e)
    | none => .err (.jsonDecode "serde_json")
  else .err (.message ("Received response: " ++ toString status))

/-- The HTTP verbs the client issues. -/
inductive Verb where
  | get
  | post
  | put
  | delete
deriving Repr, DecidableEq

/-- Every request method of `Client` (`get`, `get_signed`, `post`,
`post_signed`, `put`, `delete`, `delete_signed`) hands its response to
the same `Client::handler`; the verb only affects URL, headers and body
construction.  This definition records that delegation. -/
def dispatch_response {α : Type} (_verb : Verb) (decode : Json → Option α)
    (status : Nat) (body : Json) : HandlerResult α :=
  handler decode status body

/-! ### spot/general.rs — the exchange-info cache -/

/-- `model::RateLimit`. -/
structure RateLimit where
  rate_limit_type : String
  interval : String
  interval_num : Nat
  limit : Nat
deriving Repr

/-- `model::Filters`, the tagged per-symbol trading filters.  `f64`
fields are kept as `Float`; no claim depends on them. -/
inductive Filters where
  | priceFilter (min_price max_price tick_size : String)
  | percentPrice (multiplier_up multiplier_down : String) (avg_price_mins : Option Float)
  | percentPriceBySide (bid_multiplier_up bid_multiplier_down ask_multiplier_up
      ask_multiplier_down : String) (avg_price_mins : Option Float)
  | lotSize (min_qty max_qty step_size : String)
  | minNotional (notional min_notional : Option String) (apply_to_market : Option Bool)
      (avg_price_mins : Option Float)
  | notional (notional min_notional : Option String) (apply_to_market : Option Bool)
      (avg_price_mins : Option Float)
  | icebergParts (limit : Option Nat)
  | maxNumOrders (max_num_orders : Option Nat)
  | maxNumAlgoOrders (max_num_algo_orders : Option Nat)
  | maxNumIcebergOrders (max_num_iceberg_orders : Nat)
  | maxPosition (max_position : String)
  | marketLotSize (min_qty max_qty step_size : String)
  | trailingData (min_trailing_above_delta max_trailing_above_delta
      min_trailing_below_delta max_trailing_below_delta : Option Nat)
deriving Repr

/-- `spot::model::Symbol`. -/
structure Symbol where
  symbol : String
  status : String
  base_asset : String
  base_asset_precision : Nat
  quote_asset : String
  quote_precision : Nat
  order_types : List String
  iceberg_allowed : Bool
  is_spot_trading_allowed : Bool
  is_margin_trading_allowed : Bool
  filters : List Filters
deriving Repr

/-- `spot::model::ExchangeInformation`. -/
structure ExchangeInformation where
  timezone : String
  server_time : Nat
  rate_limits : List RateLimit
  symbols : List Symbol
deriving Repr

/-- `CACHE_TTL` (seconds). -/
def CACHE_TTL : Nat := 600

/-- `spot::general::General`: the client plus the cached snapshot and
its fetch time (seconds since epoch). -/
structure General where
  cache : Option ExchangeInformation
  last_update : Option Nat
deriving Repr

/-- `General::has_cache` with the wall clock passed explicitly
(`now` in seconds since epoch, as the source computes from
`SystemTime::now()`): both fields populated and
`now - last_update < CACHE_TTL`.  The subtraction is the source's `u64`
subtraction; the claims only constrain clocks with
`last_update ≤ now`. -/
def has_cache (g : General) (now : Nat) : Bool :=
  g.cache.isSome && g.last_update.isSome &&
    decide (now - g.last_update.getD 0 < CACHE_TTL)

/-- `General::exchange_info`: serve the cached snapshot (the boolean
records that the cache was used) or fail with `No cache`.  The source
unwraps `self.cache` under `has_cache`; the match keeps that unwrap
total. -/
def exchange_info (g : General) (now : Nat) :
    Except String (ExchangeInformation × Bool) :=
  match g.cache with
  | some info => if has_cache g now then .ok (info, true) else .error "No cache"
  | none => .error "No cache"

/-- `General::get_symbol_info`: uppercase the name, then linearly scan
the cached snapshot's symbols (the source's `for` loop returning the
first match is `List.find?`). -/
def get_symbol_info (g : General) (now : Nat) (symbol : String) :
    Except String Symbol :=
  let upper_symbol := strToUpper symbol
  match exchange_info g now with
  | .ok info =>
    match info.1.symbols.find? (fun item => item.symbol == upper_symbol) with
    | some item => .ok item
    | none => .error "Symbol not found"
  | .error e => .error e

/-! ### Typed field access for the serde-derived deserializers

Each event struct's derived deserializer requires every non-`skip`
field under its `#[serde(rename = "…")]` wire key, with the value kind
the Rust type demands; unknown keys are ignored.  `#[serde(skip)]`
fields are never read and take the type's default.  Fields carried
through `rust_decimal::serde::str` must be strings holding a decimal
numeral. -/

def Json.getStr? (j : Json) (k : String) : Option String :=
  match j.get? k with
  | some (.str s) => some s
  | _ => none

/-- A `u64` field: a non-negative integral number. -/
def Json.getU64? (j : Json) (k : String) : Option Nat :=
  match j.get? k with
  | some (.num n) => if n < 0 then none else some n.toNat
  | _ => none

/-- An `i64` field. -/
def Json.getI64? (j : Json) (k : String) : Option Int :=
  match j.get? k with
  | some (.num n) => some n
  | _ => none

def Json.getBool? (j : Json) (k : String) : Option Bool :=
  match j.get? k with
  | some (.bool b) => some b
  | _ => none

def Json.getArr? (j : Json) (k : String) : Option (List Json) :=
  match j.get? k with
  | some (.arr xs) => some xs
  | _ => none

/-- An `Option<u64>` field (serde: missing or `null` is `None`). -/
def Json.getOptU64? (j : Json) (k : String) : Option (Option Nat) :=
  match j.get? k with
  | none => some none
  | some .null => some none
  | some (.num n) => if n < 0 then none else some (some n.toNat)
  | some _ => none

/-- An `Option<String>` field (serde: missing or `null` is `None`). -/
def Json.getOptStr? (j : Json) (k : String) : Option (Option String) :=
  match j.get? k with
  | none => some none
  | some .null => some none
  | some (.str s) => some (some s)
  | some _ => none

/-- A decimal numeral as `rust_decimal`'s string format accepts it: an
optional sign, digits, at most one decimal point. -/
def decimalCore (cs : List Char) : Bool :=
  !cs.isEmpty && cs.all (fun c => c.isDigit || c == '.') &&
    cs.count '.' ≤ 1 && cs.any (fun c => c.isDigit)

def isDecimalString (s : String) : Bool :=
  match s.data with
  | '-' :: rest => decimalCore rest
  | l => decimalCore l

/-- A `Decimal` field serialized `with = "rust_decimal::serde::str"`. -/
def Json.getDecStr? (j : Json) (k : String) : Option String :=
  match j.getStr? k with
  | some s => if isDecimalString s then some s else none
  | none => none

/-! ### model.rs — websocket event DTOs

Lean reserves `open`, so the Rust field `open` is rendered `open_`
throughout; every other field keeps its source name. -/

/-- `model::EventBalance` (wire keys `a`, `wb`, `cw`, `bc`). -/
structure EventBalance where
  asset : String
  wallet_balance : String
  cross_wallet_balance : String
  balance_change : String
deriving Repr, DecidableEq

def parseEventBalance (j : Json) : Option EventBalance :=
  match j.getStr? "a", j.getStr? "wb", j.getStr? "cw", j.getStr? "bc" with
  | some a, some wb, some cw, some bc => some ⟨a, wb, cw, bc⟩
  | _, _, _, _ => none

/-- `model::EventPosition` (wire keys `s`, `pa`, `ep`, `cr`, `up`, `mt`,
`iw`, `ps`). -/
structure EventPosition where
  symbol : String
  position_amount : String
  entry_price : String
  accumulated_realized : String
  unrealized_pnl : String
  margin_type : String
  isolated_wallet : String
  position_side : String
deriving Repr, DecidableEq

def parseEventPosition (j : Json) : Option EventPosition :=
  match j.getStr? "s", j.getStr? "pa", j.getStr? "ep", j.getStr? "cr",
      j.getStr? "up", j.getStr? "mt", j.getStr? "iw", j.getStr? "ps" with
  | some s, some pa, some ep, some cr, some up, some mt, some iw, some ps =>
    some ⟨s, pa, ep, cr, up, mt, iw, ps⟩
  | _, _, _, _, _, _, _, _ => none

/-- `model::AccountUpdateDataEvent` (wire keys `m`, `B`, `P`). -/
structure AccountUpdateDataEvent where
  reason : String
  balances : List EventBalance
  positions : List EventPosition
deriving Repr, DecidableEq

def parseAccountUpdateData (j : Json) : Option AccountUpdateDataEvent :=
  match j.getStr? "m", j.getArr? "B", j.getArr? "P" with
  | some m, some bs, some ps =>
    match bs.mapM parseEventBalance, ps.mapM parseEventPosition with
    | some balances, some positions => some ⟨m, balances, positions⟩
    | _, _ => none
  | _, _, _ => none

/-- `model::AccountUpdateEvent` (wire keys `e`, `E`, `a`). -/
structure AccountUpdateEvent where
  event_type : String
  event_time : Nat
  data : AccountUpdateDataEvent
deriving Repr, DecidableEq

def parseAccountUpdateEvent (j : Json) : Option AccountUpdateEvent :=
  match j.getStr? "e", j.getU64? "E", j.get? "a" with
  | some e, some tE, some a =>
    match parseAccountUpdateData a with
    | some data => some ⟨e, tE, data⟩
    | none => none
  | _, _, _ => none

/-- `model::AggrTradesEvent` (wire keys `e`, `E`, `s`, `a`, `p`, `q`,
`f`, `l`, `T`, `m`; `M` is `skip`). -/
structure AggrTradesEvent where
  event_type : String
  event_time : Nat
  symbol : String
  aggregated_trade_id : Nat
  price : String
  qty : String
  first_break_trade_id : Nat
  last_break_trade_id : Nat
  trade_order_time : Nat
  is_buyer_maker : Bool
  m_ignore : Bool := false
deriving Repr, DecidableEq

def parseAggrTradesEvent (j : Json) : Option AggrTradesEvent :=
  match j.getStr? "e", j.getU64? "E", j.getStr? "s", j.getU64? "a",
      j.getDecStr? "p", j.getDecStr? "q", j.getU64? "f", j.getU64? "l",
      j.getU64? "T", j.getBool? "m" with
  | some e, some tE, some s, some a, some p, some q, some f, some l,
      some tT, some m =>
    some ⟨e, tE, s, a, p, q, f, l, tT, m, false⟩
  | _, _, _, _, _, _, _, _, _, _ => none

/-- `model::BalanceUpdateEvent` (wire keys `B`, `e`, `E`, `u`). -/
structure BalanceUpdateEvent where
  balance : List EventBalance
  event_type : String
  event_time : Nat
  last_account_update_time : Nat
deriving Repr, DecidableEq

def parseBalanceUpdateEvent (j : Json) : Option BalanceUpdateEvent :=
  match j.getArr? "B", j.getStr? "e", j.getU64? "E", j.getU64? "u" with
  | some bs, some e, some tE, some u =>
    match bs.mapM parseEventBalance with
    | some balance => some ⟨balance, e, tE, u⟩
    | none => none
  | _, _, _, _ => none

/-- `model::BookTickerEvent` (wire keys `u`, `s`, `b`, `B`, `a`, `A`). -/
structure BookTickerEvent where
  update_id : Nat
  symbol : String
  best_bid : String
  best_bid_qty : String
  best_ask : String
  best_ask_qty : String
deriving Repr, DecidableEq

def parseBookTickerEvent (j : Json) : Option BookTickerEvent :=
  match j.getU64? "u", j.getStr? "s", j.getStr? "b", j.getStr? "B",
      j.getStr? "a", j.getStr? "A" with
  | some u, some s, some b, some bQ, some a, some aQ =>
    some ⟨u, s, b, bQ, a, aQ⟩
  | _, _, _, _, _, _ => none

/-- `model::DayTickerEvent` (wire keys `e`, `E`, `s`, `p`, `P`, `w`,
`x`, `c`, `Q`, `b`, `B`, `a`, `A`, `o`, `h`, `l`, `v`, `q`, `O`, `C`,
`F`, `L`, `n`). -/
structure DayTickerEvent where
  event_type : String
  event_time : Nat
  symbol : String
  price_change : String
  price_change_percent : String
  average_price : String
  prev_close : String
  current_close : String
  current_close_qty : String
  best_bid : String
  best_bid_qty : String
  best_ask : String
  best_ask_qty : String
  open_ : String
  high : String
  low : String
  volume : String
  quote_volume : String
  open_time : Nat
  close_time : Nat
  first_trade_id : Int
  last_trade_id : Int
  num_trades : Nat
deriving Repr, DecidableEq

def parseDayTickerEvent (j : Json) : Option DayTickerEvent :=
  match j.getStr? "e", j.getU64? "E", j.getStr? "s", j.getStr? "p",
      j.getStr? "P", j.getStr? "w", j.getStr? "x", j.getStr? "c",
      j.getStr? "Q", j.getStr? "b", j.getStr? "B", j.getStr? "a",
      j.getStr? "A" with
  | some e, some tE, some s, some p, some pP, some w, some x, some c,
      some qQ, some b, some bB, some a, some aA =>
    match j.getStr? "o", j.getStr? "h", j.getStr? "l", j.getStr? "v",
        j.getStr? "q", j.getU64? "O", j.getU64? "C", j.getI64? "F",
        j.getI64? "L", j.getU64? "n" with
    | some o, some h, some l, some v, some q, some oO, some cC, some fF,
        some lL, some n =>
      some ⟨e, tE, s, p, pP, w, x, c, qQ, b, bB, a, aA, o, h, l, v, q,
        oO, cC, fF, lL, n⟩
    | _, _, _, _, _, _, _, _, _, _ => none
  | _, _, _, _, _, _, _, _, _, _, _, _, _ => none

/-- `model::Bids` / `model::Asks`: a price level, serialized through
`rust_decimal::serde::str`.  The wire form is the two-element array
`["price","qty"]` (serde derives also accept the map form). -/
structure Bids where
  price : String
  qty : String
deriving Repr, DecidableEq

structure Asks where
  price : String
  qty : String
deriving Repr, DecidableEq

def parseLevel (j : Json) : Option (String × String) :=
  match j with
  | .arr [.str p, .str q] =>
    if isDecimalString p && isDecimalString q then some (p, q) else none
  | .obj _ =>
    match j.getDecStr? "price", j.getDecStr? "qty" with
    | some p, some q => some (p, q)
    | _, _ => none
  | _ => none

def parseBids (j : Json) : Option Bids := (parseLevel j).map fun pq => ⟨pq.1, pq.2⟩

def parseAsks (j : Json) : Option Asks := (parseLevel j).map fun pq => ⟨pq.1, pq.2⟩

/-- `model::DepthOrderBookEvent` (wire keys `e`, `E`, `s`, `U`, `u`,
optional `pu`, `b`, `a`). -/
structure DepthOrderBookEvent where
  event_type : String
  event_time : Nat
  symbol : String
  first_update_id : Nat
  final_update_id : Nat
  previous_final_update_id : Option Nat
  bids : List Bids
  asks : List Asks
deriving Repr, DecidableEq

def parseDepthOrderBookEvent (j : Json) : Option DepthOrderBookEvent :=
  match j.getStr? "e", j.getU64? "E", j.getStr? "s", j.getU64? "U",
      j.getU64? "u", j.getOptU64? "pu", j.getArr? "b", j.getArr? "a" with
  | some e, some tE, some s, some uU, some u, some pu, some bs, some as_ =>
    match bs.mapM parseBids, as_.mapM parseAsks with
    | some bids, some asks => some ⟨e, tE, s, uU, u, pu, bids, asks⟩
    | _, _ => none
  | _, _, _, _, _, _, _, _ => none

/-- `model::Kline` (wire keys `t`, `T`, `s`, `i`, `f`, `L`, `o`, `c`,
`h`, `l`, `v`, `n`, `x`, `q`, `V`, `Q`; `B` is `skip`). -/
structure Kline where
  open_time : Int
  close_time : Int
  symbol : String
  interval : String
  first_trade_id : Int
  last_trade_id : Int
  open_ : String
  close : String
  high : String
  low : String
  volume : String
  number_of_trades : Int
  is_final_bar : Bool
  quote_asset_volume : String
  taker_buy_base_asset_volume : String
  taker_buy_quote_asset_volume : String
  ignore_me : String := ""
deriving Repr, DecidableEq

def parseKline (j : Json) : Option Kline :=
  match j.getI64? "t", j.getI64? "T", j.getStr? "s", j.getStr? "i",
      j.getI64? "f", j.getI64? "L", j.getStr? "o", j.getStr? "c" with
  | some t, some tT, some s, some i, some f, some lL, some o, some c =>
    match j.getStr? "h", j.getStr? "l", j.getStr? "v", j.getI64? "n",
        j.getBool? "x", j.getStr? "q", j.getStr? "V", j.getStr? "Q" with
    | some h, some l, some v, some n, some x, some q, some vV, some qQ =>
      some ⟨t, tT, s, i, f, lL, o, c, h, l, v, n, x, q, vV, qQ, ""⟩
    | _, _, _, _, _, _, _, _ => none
  | _, _, _, _, _, _, _, _ => none

/-- `model::KlineEvent` (wire keys `e`, `E`, `s`, `k`). -/
structure KlineEvent where
  event_type : String
  event_time : Nat
  symbol : String
  kline : Kline
deriving Repr, DecidableEq

def parseKlineEvent (j : Json) : Option KlineEvent :=
  match j.getStr? "e", j.getU64? "E", j.getStr? "s", j.get? "k" with
  | some e, some tE, some s, some k =>
    match parseKline k with
    | some kline => some ⟨e, tE, s, kline⟩
    | none => none
  | _, _, _, _ => none

/-- `model::ContinuousKline` (wire keys `t`, `T`, `i`, `f`, `L`, `o`,
`c`, `h`, `l`, `v`, `n`, `x`, `q`, `V`, `Q`; `B` is `skip`). -/
structure ContinuousKline where
  start_time : Int
  end_time : Int
  interval : String
  first_trade_id : Int
  last_trade_id : Int
  open_ : String
  close : String
  high : String
  low : String
  volume : String
  number_of_trades : Int
  is_final_bar : Bool
  quote_volume : String
  active_buy_volume : String
  active_volume_buy_quote : String
  ignore_me : String := ""
deriving Repr, DecidableEq

def parseContinuousKline (j : Json) : Option ContinuousKline :=
  match j.getI64? "t", j.getI64? "T", j.getStr? "i", j.getI64? "f",
      j.getI64? "L", j.getStr? "o", j.getStr? "c" with
  | some t, some tT, some i, some f, some lL, some o, some c =>
    match j.getStr? "h", j.getStr? "l", j.getStr? "v", j.getI64? "n",
        j.getBool? "x", j.getStr? "q", j.getStr? "V", j.getStr? "Q" with
    | some h, some l, some v, some n, some x, some q, some vV, some qQ =>
      some ⟨t, tT, i, f, lL, o, c, h, l, v, n, x, q, vV, qQ, ""⟩
    | _, _, _, _, _, _, _, _ => none
  | _, _, _, _, _, _, _ => none

/-- `model::ContinuousKlineEvent` (wire keys `e`, `E`, `ps`, `ct`,
`k`). -/
structure ContinuousKlineEvent where
  event_type : String
  event_time : Nat
  pair : String
  contract_type : String
  kline : ContinuousKline
deriving Repr, DecidableEq

def parseContinuousKlineEvent (j : Json) : Option ContinuousKlineEvent :=
  match j.getStr? "e", j.getU64? "E", j.getStr? "ps", j.getStr? "ct",
      j.get? "k" with
  | some e, some tE, some ps, some ct, some k =>
    match parseContinuousKline k with
    | some kline => some ⟨e, tE, ps, ct, kline⟩
    | none => none
  | _, _, _, _, _ => none

/-- `model::IndexKline` (wire keys `t`, `T`, `i`, `f`, `L`, `o`, `c`,
`h`, `l`, `v`, `n`, `x`; `s`, `q`, `V`, `Q`, `B` are `skip`). -/
structure IndexKline where
  start_time : Int
  end_time : Int
  ignore_me : String := ""
  interval : String
  first_trade_id : Int
  last_trade_id : Int
  open_ : String
  close : String
  high : String
  low : String
  volume : String
  number_of_trades : Int
  is_final_bar : Bool
  ignore_me2 : String := ""
  ignore_me3 : String := ""
  ignore_me4 : String := ""
  ignore_me5 : String := ""
deriving Repr, DecidableEq

def parseIndexKline (j : Json) : Option IndexKline :=
  match j.getI64? "t", j.getI64? "T", j.getStr? "i", j.getI64? "f",
      j.getI64? "L", j.getStr? "o", j.getStr? "c" with
  | some t, some tT, some i, some f, some lL, some o, some c =>
    match j.getStr? "h", j.getStr? "l", j.getStr? "v", j.getI64? "n",
        j.getBool? "x" with
    | some h, some l, some v, some n, some x =>
      some ⟨t, tT, "", i, f, lL, o, c, h, l, v, n, x, "", "", "", ""⟩
    | _, _, _, _, _ => none
  | _, _, _, _, _, _, _ => none

/-- `model::IndexKlineEvent` (wire keys `e`, `E`, `ps`, `k`). -/
structure IndexKlineEvent where
  event_type : String
  event_time : Nat
  pair : String
  kline : IndexKline
deriving Repr, DecidableEq

def parseIndexKlineEvent (j : Json) : Option IndexKlineEvent :=
  match j.getStr? "e", j.getU64? "E", j.getStr? "ps", j.get? "k" with
  | some e, some tE, some ps, some k =>
    match parseIndexKline k with
    | some kline => some ⟨e, tE, ps, kline⟩
    | none => none
  | _, _, _, _ => none

/-- `model::LiquidationOrder` (wire keys `s`, `S`, `o`, `f`, `q`, `p`,
`ap`, `X`, `l`, `z`, `T`). -/
structure LiquidationOrder where
  symbol : String
  side : String
  order_type : String
  time_in_force : String
  original_quantity : String
  price : String
  average_price : String
  order_status : String
  order_last_filled_quantity : String
  order_filled_accumulated_quantity : String
  order_trade_time : Nat
deriving Repr, DecidableEq

def parseLiquidationOrder (j : Json) : Option LiquidationOrder :=
  match j.getStr? "s", j.getStr? "S", j.getStr? "o", j.getStr? "f",
      j.getStr? "q", j.getStr? "p" with
  | some s, some sS, some o, some f, some q, some p =>
    match j.getStr? "ap", j.getStr? "X", j.getStr? "l", j.getStr? "z",
        j.getU64? "T" with
    | some ap, some xX, some l, some z, some tT =>
      some ⟨s, sS, o, f, q, p, ap, xX, l, z, tT⟩
    | _, _, _, _, _ => none
  | _, _, _, _, _, _ => none

/-- `model::LiquidationEvent` (wire keys `e`, `E`, `o`). -/
structure LiquidationEvent where
  event_type : String
  event_time : Nat
  liquidation_order : LiquidationOrder
deriving Repr, DecidableEq

def parseLiquidationEvent (j : Json) : Option LiquidationEvent :=
  match j.getStr? "e", j.getU64? "E", j.get? "o" with
  | some e, some tE, some o =>
    match parseLiquidationOrder o with
    | some ord => some ⟨e, tE, ord⟩
    | none => none
  | _, _, _ => none

/-- `model::IndexPriceEvent` (wire keys `e`, `E`, `i`, `p`). -/
structure IndexPriceEvent where
  event_type : String
  event_time : Nat
  pair : String
  price : String
deriving Repr, DecidableEq

def parseIndexPriceEvent (j : Json) : Option IndexPriceEvent :=
  match j.getStr? "e", j.getU64? "E", j.getStr? "i", j.getStr? "p" with
  | some e, some tE, some i, some p => some ⟨e, tE, i, p⟩
  | _, _, _, _ => none

/-- `model::MarkPriceEvent` (wire keys `E`, `P`, `T`, `e`, optional `i`,
`p`, `r`, `s`). -/
structure MarkPriceEvent where
  event_time : Nat
  estimate_settle_price : String
  next_funding_time : Nat
  event_type : String
  index_price : Option String
  mark_price : String
  funding_rate : String
  symbol : String
deriving Repr, DecidableEq

def parseMarkPriceEvent (j : Json) : Option MarkPriceEvent :=
  match j.getU64? "E", j.getStr? "P", j.getU64? "T", j.getStr? "e",
      j.getOptStr? "i", j.getStr? "p", j.getStr? "r", j.getStr? "s" with
  | some tE, some pP, some tT, some e, some i, some p, some r, some s =>
    some ⟨tE, pP, tT, e, i, p, r, s⟩
  | _, _, _, _, _, _, _, _ => none

/-- `model::MiniTickerEvent` (wire keys `e`, `E`, `s`, `c`, `o`, `h`,
`l`, `v`, `q`). -/
structure MiniTickerEvent where
  event_type : String
  event_time : Nat
  symbol : String
  close : String
  open_ : String
  high : String
  low : String
  volume : String
  quote_volume : String
deriving Repr, DecidableEq

def parseMiniTickerEvent (j : Json) : Option MiniTickerEvent :=
  match j.getStr? "e", j.getU64? "E", j.getStr? "s", j.getStr? "c",
      j.getStr? "o", j.getStr? "h", j.getStr? "l", j.getStr? "v",
      j.getStr? "q" with
  | some e, some tE, some s, some c, some o, some h, some l, some v, some q =>
    some ⟨e, tE, s, c, o, h, l, v, q⟩
  | _, _, _, _, _, _, _, _, _ => none

/-- `model::TradeEvent` (wire keys `e`, `E`, `s`, `t`, `p`, `q`, `b`,
`a`, `T`, `m`; `M` is `skip`). -/
structure TradeEvent where
  event_type : String
  event_time : Nat
  symbol : String
  trade_id : Nat
  price : String
  qty : String
  buyer_order_id : Nat
  seller_order_id : Nat
  trade_order_time : Nat
  is_buyer_maker : Bool
  m_ignore : Bool := false
deriving Repr, DecidableEq

def parseTradeEvent (j : Json) : Option TradeEvent :=
  match j.getStr? "e", j.getU64? "E", j.getStr? "s", j.getU64? "t",
      j.getStr? "p", j.getStr? "q", j.getU64? "b", j.getU64? "a",
      j.getU64? "T", j.getBool? "m" with
  | some e, some tE, some s, some t, some p, some q, some b, some a,
      some tT, some m =>
    some ⟨e, tE, s, t, p, q, b, a, tT, m, false⟩
  | _, _, _, _, _, _, _, _, _, _ => none

/-- `model::UserDataStreamExpiredEvent` (wire keys `e`, `E`). -/
structure UserDataStreamExpiredEvent where
  event_type : String
  event_time : Nat
deriving Repr, DecidableEq

def parseUserDataStreamExpiredEvent (j : Json) : Option UserDataStreamExpiredEvent :=
  match j.getStr? "e", j.getU64? "E" with
  | some e, some tE => some ⟨e, tE⟩
  | _, _ => none

/-- `model::OrderBook` (camelCase wire keys `lastUpdateId`, `bids`,
`asks`). -/
structure OrderBook where
  last_update_id : Nat
  bids : List Bids
  asks : List Asks
deriving Repr, DecidableEq

def parseOrderBook (j : Json) : Option OrderBook :=
  match j.getU64? "lastUpdateId", j.getArr? "bids", j.getArr? "asks" with
  | some id, some bs, some as_ =>
    match bs.mapM parseBids, as_.mapM parseAsks with
    | some bids, some asks => some ⟨id, bids, asks⟩
    | _, _ => none
  | _, _, _ => none

/-- `spot::model::OrderTradeEvent`, the execution-report event.  The
`model::OrderTradeEvent` that `websockets.rs` names is not under
`src/`; this is the repository's `spot/model.rs` struct of the same
name.  Required wire keys `e`, `E`, `s`, `c`, `S`, `o`, `f`, `q`, `p`,
`x`, `X`, `r`, `i`, `l`, `z`, `L`, `n`, `T`, `t`, `m`; keys `P`, `F`,
`C`, `N`, `I`, `M` and the fields `g`, `w` are `skip`. -/
structure OrderTradeEvent where
  event_type : String
  event_time : Nat
  symbol : String
  new_client_order_id : String
  side : String
  order_type : String
  time_in_force : String
  qty : String
  price : String
  p_ignore : String := ""
  f_ignore : String := ""
  g : Int := 0
  c_ignore : Option String := none
  execution_type : String
  order_status : String
  order_reject_reason : String
  order_id : Nat
  qty_last_filled_trade : String
  accumulated_qty_filled_trades : String
  price_last_filled_trade : String
  commission : String
  asset_commisioned : Option String := none
  trade_order_time : Nat
  trade_id : Int
  i_ignore : Nat := 0
  w : Bool := false
  is_buyer_maker : Bool
  m_ignore : Bool := false
deriving Repr, DecidableEq

def parseOrderTradeEvent (j : Json) : Option OrderTradeEvent :=
  match j.getStr? "e", j.getU64? "E", j.getStr? "s", j.getStr? "c",
      j.getStr? "S", j.getStr? "o", j.getStr? "f", j.getStr? "q",
      j.getStr? "p" with
  | some e, some tE, some s, some c, some sS, some o, some f, some q,
      some p =>
    match j.getStr? "x", j.getStr? "X", j.getStr? "r", j.getU64? "i",
        j.getStr? "l", j.getStr? "z", j.getStr? "L", j.getStr? "n" with
    | some x, some xX, some r, some i, some l, some z, some lL, some n =>
      match j.getU64? "T", j.getI64? "t", j.getBool? "m" with
      | some tT, some t, some m =>
        some ⟨e, tE, s, c, sS, o, f, q, p, "", "", 0, none, x, xX, r, i,
          l, z, lL, n, none, tT, t, 0, false, m, false⟩
      | _, _, _ => none
    | _, _, _, _, _, _, _, _ => none
  | _, _, _, _, _, _, _, _, _ => none

/-! ### The untagged decoders (websockets.rs, futures/websockets.rs)

serde's `#[serde(untagged)]` tries the variants in declaration order
and accepts the first whose deserializer succeeds; `firstSome` is that
strategy over the ordered list of variant parsers. -/

def firstSome {α : Type} (ps : List (Json → Option α)) (j : Json) : Option α :=
  match ps with
  | [] => none
  | p :: rest =>
    match p j with
    | some x => some x
    | none => firstSome rest j

/-- `Vec<T>` deserialization: a JSON array whose elements all parse. -/
def parseVecOf {α : Type} (p : Json → Option α) (j : Json) : Option (List α) :=
  match j with
  | .arr xs => xs.mapM p
  | _ => none

namespace Spot

/-- `websockets::Events`, the spot untagged union, in its declaration
order — the array-of-day-tickers shape is the first variant. -/
inductive Events where
  | Vec (v : List DayTickerEvent)
  | BalanceUpdateEvent (v : BalanceUpdateEvent)
  | DayTickerEvent (v : DayTickerEvent)
  | BookTickerEvent (v : BookTickerEvent)
  | AccountUpdateEvent (v : AccountUpdateEvent)
  | OrderTradeEvent (v : OrderTradeEvent)
  | AggrTradesEvent (v : AggrTradesEvent)
  | TradeEvent (v : TradeEvent)
  | KlineEvent (v : KlineEvent)
  | OrderBook (v : OrderBook)
  | DepthOrderBookEvent (v : DepthOrderBookEvent)
deriving Repr

/-- The spot variant parsers, in the declaration order of `Events`. -/
def eventParsers : List (Json → Option Events) :=
  [fun j => (parseVecOf parseDayTickerEvent j).map Events.Vec,
   fun j => (parseBalanceUpdateEvent j).map Events.BalanceUpdateEvent,
   fun j => (parseDayTickerEvent j).map Events.DayTickerEvent,
   fun j => (parseBookTickerEvent j).map Events.BookTickerEvent,
   fun j => (parseAccountUpdateEvent j).map Events.AccountUpdateEvent,
   fun j => (parseOrderTradeEvent j).map Events.OrderTradeEvent,
   fun j => (parseAggrTradesEvent j).map Events.AggrTradesEvent,
   fun j => (parseTradeEvent j).map Events.TradeEvent,
   fun j => (parseKlineEvent j).map Events.KlineEvent,
   fun j => (parseOrderBook j).map Events.OrderBook,
   fun j => (parseDepthOrderBookEvent j).map Events.DepthOrderBookEvent]

/-- `serde_json::from_value::<Events>`. -/
def parseEvents (j : Json) : Option Events := firstSome eventParsers j

/-- `websockets::WebsocketEvent` (spot). -/
inductive WebsocketEvent where
  | AccountUpdate (v : AccountUpdateEvent)
  | BalanceUpdate (v : BalanceUpdateEvent)
  | OrderTrade (v : OrderTradeEvent)
  | AggrTrades (v : AggrTradesEvent)
  | Trade (v : TradeEvent)
  | OrderBook (v : OrderBook)
  | DayTicker (v : DayTickerEvent)
  | DayTickerAll (v : List DayTickerEvent)
  | Kline (v : KlineEvent)
  | DepthOrderBook (v : DepthOrderBookEvent)
  | BookTicker (v : BookTickerEvent)
deriving Repr

/-- `WebSockets::handle_msg` (spot): unwrap a top-level `data` field by
recursing into it, otherwise run the untagged decoder and re-tag the
result.  The `data.to_string()`/re-parse round trip of the source is
the identity on values. -/
def handle_msg (j : Json) : Except String WebsocketEvent :=
  match hdata : j.get? "data" with
  | some data => handle_msg data
  | none =>
    match parseEvents j with
    | some events =>
      .ok (match events with
        | .Vec v => .DayTickerAll v
        | .BookTickerEvent v => .BookTicker v
        | .BalanceUpdateEvent v => .BalanceUpdate v
        | .AccountUpdateEvent v => .AccountUpdate v
        | .OrderTradeEvent v => .OrderTrade v
        | .AggrTradesEvent v => .AggrTrades v
        | .TradeEvent v => .Trade v
        | .DayTickerEvent v => .DayTicker v
        | .KlineEvent v => .Kline v
        | .OrderBook v => .OrderBook v
        | .DepthOrderBookEvent v => .DepthOrderBook v)
    | none => .error "data did not match any variant of untagged enum Events"
termination_by sizeOf j
decreasing_by
  cases j <;> simp [Json.get?] at hdata
  case obj fields =>
    obtain ⟨a, hf⟩ := hdata
    have hmem := List.mem_of_find?_eq_some hf
    have h2 : sizeOf (a, data) < sizeOf fields := List.sizeOf_lt_of_mem hmem
    have h1 : sizeOf data < sizeOf (a, data) := by simp
    simp only [Json.obj.sizeOf_spec]
    omega

/-- Number of nested top-level `data` envelopes `handle_msg` unwraps —
one recursive call per envelope. -/
def data_depth (j : Json) : Nat :=
  match hdata : j.get? "data" with
  | some data => data_depth data + 1
  | none => 0
termination_by sizeOf j
decreasing_by
  cases j <;> simp [Json.get?] at hdata
  case obj fields =>
    obtain ⟨a, hf⟩ := hdata
    have hmem := List.mem_of_find?_eq_some hf
    have h2 : sizeOf (a, data) < sizeOf fields := List.sizeOf_lt_of_mem hmem
    have h1 : sizeOf data < sizeOf (a, data) := by simp
    simp only [Json.obj.sizeOf_spec]
    omega

/-- `tungstenite::Message`; a close frame carries an optional close
frame description, and `frame` stands for `Message::Frame(_)`. -/
inductive Message where
  | text (msg : Json)
  | binary (payload : List Nat)
  | ping (payload : List Nat)
  | pong (payload : List Nat)
  | close (frame : Option String)
  | frame
deriving Repr

/-- `WebSockets::recv` (spot) as a function of the next stream item
(`None` is end of stream, `Some(Err)` a transport read error): the
yielded result together with the messages written to the socket's
write half. -/
def recv (item : Option (Except String Message)) :
    Except String (Option WebsocketEvent) × List Message :=
  match item with
  | some (.ok (.text msg)) =>
    match handle_msg msg with
    | .ok event => (.ok (some event), [])
    | .error e => (.error e, [])
  | some (.ok (.ping payload)) => (.ok none, [Message.pong payload])
  | some (.ok (.pong _)) => (.ok none, [])
  | some (.ok (.binary _)) => (.ok none, [])
  | some (.ok .frame) => (.ok none, [])
  | some (.ok (.close e)) =>
    (.error ("Disconnected " ++ (match e with | some s => s | none => "None")), [])
  | some (.error e) => (.error e, [])
  | none => (.error "Websocket connection closed", [])

end Spot

namespace Fut

/-- Modelled from the spec: `futures::model::OrderTradeEvent`
(`src/futures/model.rs` is not under `src/`).  The futures order-trade
update event of §3's variant list: short-keyed header fields `e`
(event type), `E` (event time), `T` (transaction time) and the order
detail object under `o`. -/
structure OrderTradeEvent where
  event_type : String
  event_time : Nat
  transaction_time : Nat
  order : Json
deriving Repr

/-- Modelled from the spec: deserializer for `Fut.OrderTradeEvent`,
requiring `e`, `E`, `T` and an object under `o`. -/
def parseOrderTradeEvent (j : Json) : Option OrderTradeEvent :=
  match j.getStr? "e", j.getU64? "E", j.getU64? "T", j.get? "o" with
  | some e, some tE, some tT, some (.obj fields) =>
    some ⟨e, tE, tT, .obj fields⟩
  | _, _, _, _ => none

/-- Modelled from the spec: `futures::model::OrderBook`
(`src/futures/model.rs` is not under `src/`).  The order-book snapshot
shape of §3 — a numeric `lastUpdateId` with `bids`/`asks` price-level
arrays, as the spot `model::OrderBook`. -/
structure OrderBook where
  last_update_id : Nat
  bids : List Bids
  asks : List Asks
deriving Repr, DecidableEq

/-- Modelled from the spec: deserializer for `Fut.OrderBook`. -/
def parseOrderBook (j : Json) : Option OrderBook :=
  match j.getU64? "lastUpdateId", j.getArr? "bids", j.getArr? "asks" with
  | some id, some bs, some as_ =>
    match bs.mapM parseBids, as_.mapM parseAsks with
    | some bids, some asks => some ⟨id, bids, asks⟩
    | _, _ => none
  | _, _, _ => none

/-- `futures::websockets::Events`, the futures untagged union, in its
declaration order — the array-of-day-tickers shape is the first
variant and `IndexPriceEvent` precedes `MarkPriceEvent`. -/
inductive Events where
  | Vec (v : List DayTickerEvent)
  | DayTickerEvent (v : DayTickerEvent)
  | BookTickerEvent (v : BookTickerEvent)
  | MiniTickerEvent (v : MiniTickerEvent)
  | VecMiniTickerEvent (v : List MiniTickerEvent)
  | AccountUpdateEvent (v : AccountUpdateEvent)
  | OrderTradeEvent (v : OrderTradeEvent)
  | AggrTradesEvent (v : AggrTradesEvent)
  | IndexPriceEvent (v : IndexPriceEvent)
  | MarkPriceEvent (v : MarkPriceEvent)
  | VecMarkPriceEvent (v : List MarkPriceEvent)
  | TradeEvent (v : TradeEvent)
  | KlineEvent (v : KlineEvent)
  | ContinuousKlineEvent (v : ContinuousKlineEvent)
  | IndexKlineEvent (v : IndexKlineEvent)
  | LiquidationEvent (v : LiquidationEvent)
  | OrderBook (v : OrderBook)
  | DepthOrderBookEvent (v : DepthOrderBookEvent)
  | UserDataStreamExpiredEvent (v : UserDataStreamExpiredEvent)
deriving Repr

/-- The futures variant parsers, in the declaration order of
`Events`. -/
def eventParsers : List (Json → Option Events) :=
  [fun j => (parseVecOf parseDayTickerEvent j).map Events.Vec,
   fun j => (parseDayTickerEvent j).map Events.DayTickerEvent,
   fun j => (parseBookTickerEvent j).map Events.BookTickerEvent,
   fun j => (parseMiniTickerEvent j).map Events.MiniTickerEvent,
   fun j => (parseVecOf parseMiniTickerEvent j).map Events.VecMiniTickerEvent,
   fun j => (parseAccountUpdateEvent j).map Events.AccountUpdateEvent,
   fun j => (parseOrderTradeEvent j).map Events.OrderTradeEvent,
   fun j => (parseAggrTradesEvent j).map Events.AggrTradesEvent,
   fun j => (parseIndexPriceEvent j).map Events.IndexPriceEvent,
   fun j => (parseMarkPriceEvent j).map Events.MarkPriceEvent,
   fun j => (parseVecOf parseMarkPriceEvent j).map Events.VecMarkPriceEvent,
   fun j => (parseTradeEvent j).map Events.TradeEvent,
   fun j => (parseKlineEvent j).map Events.KlineEvent,
   fun j => (parseContinuousKlineEvent j).map Events.ContinuousKlineEvent,
   fun j => (parseIndexKlineEvent j).map Events.IndexKlineEvent,
   fun j => (parseLiquidationEvent j).map Events.LiquidationEvent,
   fun j => (parseOrderBook j).map Events.OrderBook,
   fun j => (parseDepthOrderBookEvent j).map Events.DepthOrderBookEvent,
   fun j => (parseUserDataStreamExpiredEvent j).map Events.UserDataStreamExpiredEvent]

/-- `serde_json::from_value::<Events>` (futures). -/
def parseEvents (j : Json) : Option Events := firstSome eventParsers j

/-- `futures::websockets::WebsocketEvent`. -/
inductive WebsocketEvent where
  | AccountUpdate (v : AccountUpdateEvent)
  | OrderTrade (v : OrderTradeEvent)
  | AggrTrades (v : AggrTradesEvent)
  | Trade (v : TradeEvent)
  | OrderBook (v : OrderBook)
  | DayTicker (v : DayTickerEvent)
  | MiniTicker (v : MiniTickerEvent)
  | MiniTickerAll (v : List MiniTickerEvent)
  | IndexPrice (v : IndexPriceEvent)
  | MarkPrice (v : MarkPriceEvent)
  | MarkPriceAll (v : List MarkPriceEvent)
  | DayTickerAll (v : List DayTickerEvent)
  | Kline (v : KlineEvent)
  | ContinuousKline (v : ContinuousKlineEvent)
  | IndexKline (v : IndexKlineEvent)
  | Liquidation (v : LiquidationEvent)
  | DepthOrderBook (v : DepthOrderBookEvent)
  | BookTicker (v : BookTickerEvent)
  | UserDataStreamExpiredEvent (v : UserDataStreamExpiredEvent)
deriving Repr

/-- `WebSockets::handle_msg` (futures): unwrap a top-level `data`
envelope, then the untagged decoder, then re-tag. -/
def handle_msg (j : Json) : Except String WebsocketEvent :=
  match hdata : j.get? "data" with
  | some data => handle_msg data
  | none =>
    match parseEvents j with
    | some events =>
      .ok (match events with
        | .Vec v => .DayTickerAll v
        | .DayTickerEvent v => .DayTicker v
        | .BookTickerEvent v => .BookTicker v
        | .MiniTickerEvent v => .MiniTicker v
        | .VecMiniTickerEvent v => .MiniTickerAll v
        | .AccountUpdateEvent v => .AccountUpdate v
        | .OrderTradeEvent v => .OrderTrade v
        | .IndexPriceEvent v => .IndexPrice v
        | .MarkPriceEvent v => .MarkPrice v
        | .VecMarkPriceEvent v => .MarkPriceAll v
        | .TradeEvent v => .Trade v
        | .ContinuousKlineEvent v => .ContinuousKline v
        | .IndexKlineEvent v => .IndexKline v
        | .LiquidationEvent v => .Liquidation v
        | .KlineEvent v => .Kline v
        | .OrderBook v => .OrderBook v
        | .DepthOrderBookEvent v => .DepthOrderBook v
        | .AggrTradesEvent v => .AggrTrades v
        | .UserDataStreamExpiredEvent v => .UserDataStreamExpiredEvent v)
    | none => .error "data did not match any variant of untagged enum Events"
termination_by sizeOf j
decreasing_by
  cases j <;> simp [Json.get?] at hdata
  case obj fields =>
    obtain ⟨a, hf⟩ := hdata
    have hmem := List.mem_of_find?_eq_some hf
    have h2 : sizeOf (a, data) < sizeOf fields := List.sizeOf_lt_of_mem hmem
    have h1 : sizeOf data < sizeOf (a, data) := by simp
    simp only [Json.obj.sizeOf_spec]
    omega

end Fut


/-! ### Supporting definitions for the verification theorems -/

/-- Spec-side canonical serialization: `k1=v1&k2=v2&...` with no
trailing separator, written from the spec's words for comparison with
`build_request`. -/
def canonicalQuery : List (String × String) → String
  | [] => ""
  | [kv] => kv.1 ++ "=" ++ kv.2
  | kv :: rest => kv.1 ++ "=" ++ kv.2 ++ "&" ++ canonicalQuery rest

/-- The parameter map at the moment `build_signed_request_custom`
hands it to `build_request`: `recvWindow` inserted only when positive,
then `timestamp`. -/
def signed_parameters (parameters : List (String × String)) (recv_window : Nat)
    (timestamp : Nat) : List (String × String) :=
  insertSorted
    (if recv_window > 0 then
      insertSorted parameters ("recvWindow", toString recv_window)
    else parameters)
    ("timestamp", toString timestamp)

/-- Outcome with the decoded value erased, for comparing the
classification of `handler` and `bytes_handler`. -/
def outcome_class {α : Type} : HandlerResult α → HandlerResult Unit
  | .ok _ => .ok ()
  | .err e => .err e
  | .panicked s => .panicked s

/-- A trading symbol as the exchange-info endpoint reports it. -/
def sampleSymbol : Symbol :=
  ⟨"BNBBTC", "TRADING", "BNB", 8, "BTC", 8, [], true, true, true, []⟩

def sampleInfo : ExchangeInformation := ⟨"UTC", 1736500000000, [], [sampleSymbol]⟩

/-- A cache populated at `t0 = 1000` seconds since epoch. -/
def sampleGeneral : General := ⟨some sampleInfo, some 1000⟩

/-- Wrap a payload in `n` nested multi-stream `data` envelopes. -/
def nestData : Nat → Json → Json
  | 0, j => j
  | n + 1, j => Json.obj [("data", nestData n j)]

/-- A raw-trade stream payload (`<symbol>@trade`). -/
def tradePayload : Json :=
  Json.obj [("e", .str "trade"), ("E", .num 1736500000123), ("s", .str "BNBBTC"),
    ("t", .num 12345), ("p", .str "0.001"), ("q", .str "100"), ("b", .num 88),
    ("a", .num 50), ("T", .num 1736500000120), ("m", .bool true), ("M", .bool true)]

/-- A futures mark-price stream payload carrying the optional index
price field `i`. -/
def markPricePayload : Json :=
  Json.obj [("e", .str "markPriceUpdate"), ("E", .num 1736500000000),
    ("s", .str "BTCUSDT"), ("p", .str "96401.00000000"),
    ("i", .str "96399.51782129"), ("P", .str "96450.12345678"),
    ("r", .str "0.00010000"), ("T", .num 1736510400000)]

/-- The same payload reduced to the fields `IndexPriceEvent` requires. -/
def indexOnlyPayload : Json :=
  Json.obj [("e", .str "markPriceUpdate"), ("E", .num 1736500000000),
    ("i", .str "96399.51782129"), ("p", .str "96401.00000000")]


/-! ## Helper lemmas -/

theorem foldl_query_acc (l : List (String × String)) (a : String) :
    l.foldl (fun acc kv => acc ++ kv.1 ++ "=" ++ kv.2 ++ "&") a =
      a ++ l.foldl (fun acc kv => acc ++ kv.1 ++ "=" ++ kv.2 ++ "&") "" := by
  induction l generalizing a with
  | nil => simp
  | cons kv rest ih =>
    simp only [List.foldl_cons]
    rw [ih, ih (_ ++ _ ++ _ ++ _)]
    simp [String.append_assoc]

theorem query_fold_ne_nil (kv : String × String) (rest : List (String × String)) :
    ((kv :: rest).foldl (fun acc kv => acc ++ kv.1 ++ "=" ++ kv.2 ++ "&") "").data ≠ [] := by
  simp only [List.foldl_cons]
  rw [foldl_query_acc]
  simp [String.data_append]

/-- `build_request` realizes the spec's canonical `k1=v1&k2=v2&...`
serialization with no trailing separator. -/
theorem build_request_eq_canonical (l : List (String × String)) :
    build_request l = canonicalQuery l := by
  induction l with
  | nil => rfl
  | cons kv rest ih =>
    cases rest with
    | nil =>
      apply String.ext
      simp only [build_request, canonicalQuery, List.foldl_cons, List.foldl_nil]
      simp only [String.data_append]
      rw [List.dropLast_concat]
      simp
    | cons r rs =>
      apply String.ext
      have hne := query_fold_ne_nil r rs
      have ihd := congrArg String.data ih
      simp only [build_request] at ihd
      simp only [build_request]
      rw [List.foldl_cons, foldl_query_acc]
      rw [String.data_append]
      rw [List.dropLast_append_of_ne_nil _ hne]
      rw [ihd]
      simp [canonicalQuery, String.data_append]

theorem mem_insertSorted_self (l : List (String × String)) (kv : String × String) :
    kv ∈ insertSorted l kv := by
  induction l with
  | nil => simp [insertSorted]
  | cons hd rest ih =>
    simp only [insertSorted]
    split
    · simp
    · split
      next heq =>
        have : (kv.1, kv.2) = kv := rfl
        simp [this]
      next => simp [ih]

theorem mem_insertSorted_of_mem (l : List (String × String)) (kv a : String × String)
    (ha : a ∈ l) (hne : a.1 ≠ kv.1) : a ∈ insertSorted l kv := by
  induction l with
  | nil => simp at ha
  | cons hd rest ih =>
    simp only [insertSorted]
    rcases List.mem_cons.mp ha with rfl | hmem
    · split
      · simp
      · split
        next heq =>
          exact absurd (eq_of_beq heq).symm hne
        next => simp
    · split
      · simp [hmem]
      · split
        · simp [hmem]
        · simp [ih hmem]

theorem keys_insertSorted_not_mem (l : List (String × String)) (kv : String × String)
    (k : String) (hk : k ∉ l.map Prod.fst) (hne : k ≠ kv.1) :
    k ∉ (insertSorted l kv).map Prod.fst := by
  induction l with
  | nil => simpa [insertSorted] using hne
  | cons hd rest ih =>
    simp only [List.map_cons, List.mem_cons, not_or] at hk
    simp only [insertSorted]
    split
    · simp [hne, hk.1, hk.2]
    · split
      · simp [hne, hk.2]
      · have := ih hk.2
        simp only [List.map_cons, List.mem_cons, not_or]
        exact ⟨hk.1, this⟩

/-- One `data` envelope triggers exactly one recursive unwrap step of
the spot `handle_msg`. -/
theorem spot_handle_msg_wrap (v : Json) :
    Spot.handle_msg (Json.obj [("data", v)]) = Spot.handle_msg v := by
  rw [Spot.handle_msg]
  rfl

theorem spot_data_depth_wrap (v : Json) :
    Spot.data_depth (Json.obj [("data", v)]) = Spot.data_depth v + 1 := by
  rw [Spot.data_depth]
  rfl

/-- An untagged-union decode returns the result of the first declared
variant parser that succeeds, once every earlier parser has failed. -/
theorem firstSome_first_success {α : Type} (ps : List (Json → Option α)) (j : Json)
    (i : Nat) (hi : i < ps.length)
    (hfail : (ps.take i).all (fun p => (p j).isNone) = true)
    (hsucc : ((ps.getD i (fun _ => none)) j).isSome = true) :
    firstSome ps j = (ps.getD i (fun _ => none)) j := by
  induction ps generalizing i with
  | nil => simp at hi
  | cons p rest ih =>
    cases i with
    | zero =>
      rw [List.getD_cons_zero] at hsucc ⊢
      cases hp : p j with
      | some x => simp [firstSome, hp]
      | none => rw [hp] at hsucc; simp at hsucc
    | succ n =>
      rw [List.take_succ_cons, List.all_cons, Bool.and_eq_true] at hfail
      obtain ⟨hp, hrest⟩ := hfail
      have hpn : p j = none := by
        cases hpj : p j
        · rfl
        · rw [hpj] at hp; simp at hp
      rw [List.getD_cons_succ] at hsucc ⊢
      simp only [firstSome, hpn]
      exact ih n (by simpa using hi) hrest hsucc

/-! ## Claim theorems -/

/-- C1 (amended): the response classification is the spec's table —
200 decodes the body (decode failure is an error), 400 yields the
structured exchange error, 401/429/500/503 their dedicated errors,
and every other status except 418 a typed unexpected-status error —
uniformly for every verb and for the raw-bytes handler; at status 418,
however, the source's `assert!` panics instead of returning an error. -/
theorem handler_classification_amended (verb : Verb) {α : Type}
    (decode : Json → Option α) (status : Nat) (body : Json) (raw : List Nat) :
    (dispatch_response verb decode 200 body =
      (match decode body with
       | some value => .ok value
       | none => .err (.jsonDecode "serde_json")))
  ∧ (∀ ce, parseContentError body = some ce →
      dispatch_response verb decode 400 body = .err (.binanceError ce))
  ∧ (parseContentError body = none →
      dispatch_response verb decode 400 body = .err (.jsonDecode "serde_json"))
  ∧ dispatch_response verb decode 401 body = .err (.message "Unauthorized")
  ∧ dispatch_response verb decode 429 body = .err .tooManyRequest
  ∧ dispatch_response verb decode 500 body = .err (.message "Internal Server Error")
  ∧ dispatch_response verb decode 503 body = .err (.message "Service Unavailable")
  ∧ (status ∉ ([200, 400, 401, 429, 500, 503, 418] : List Nat) →
      dispatch_response verb decode status body =
        .err (.message ("Received response: " ++ toString status)))
  ∧ dispatch_response verb decode 418 body = .panicked "We were told we are a teapot"
  ∧ (status ≠ 200 → outcome_class (bytes_handler status body raw) =
      outcome_class (dispatch_response verb decode status body)) := by
  refine ⟨rfl, ?_, ?_, rfl, rfl, rfl, rfl, ?_, rfl, ?_⟩
  · intro ce hce
    simp [dispatch_response, handler, hce]
  · intro hce
    simp [dispatch_response, handler, hce]
  · intro h
    simp only [List.mem_cons, List.not_mem_nil, or_false, not_or] at h
    obtain ⟨h1, h2, h3, h4, h5, h6, h7⟩ := h
    simp [dispatch_response, handler, h1, h2, h3, h4, h5, h6, h7]
  · intro h200
    simp only [dispatch_response, handler, bytes_handler]
    split_ifs <;> first
      | rfl
      | (exact absurd (by assumption) h200)
      | (cases hpc : parseContentError body <;> simp [hpc, outcome_class])

/-- C1 witness: a 400 body decodes to the typed exchange error, and an
unlisted status (599) yields the unexpected-status error. -/
theorem handler_classification_amended_witness :
    (parseContentError (Json.obj [("code", .num (-1000)), ("msg", .str "x")]) =
      some ⟨-1000, "x"⟩) ∧
    (dispatch_response .get (fun _ => some (0 : Nat)) 400
      (Json.obj [("code", .num (-1000)), ("msg", .str "x")]) =
        .err (.binanceError ⟨-1000, "x"⟩)) ∧
    ((599 : Nat) ∉ ([200, 400, 401, 429, 500, 503, 418] : List Nat)) ∧
    (dispatch_response .get (fun _ => some (0 : Nat)) 599 (Json.obj []) =
      .err (.message ("Received response: " ++ toString (599 : Nat)))) :=
  ⟨rfl,
   (handler_classification_amended .get (fun _ => some (0 : Nat)) 400
     (Json.obj [("code", .num (-1000)), ("msg", .str "x")]) []).2.1 ⟨-1000, "x"⟩ rfl,
   by decide,
   (handler_classification_amended .get (fun _ => some (0 : Nat)) 599
     (Json.obj []) []).2.2.2.2.2.2.2.1 (by decide)⟩

/-- C1 counterexample: at HTTP 418 the handler panics (the `assert!`),
so "every other status returns a typed error result, never a panic" is
false as stated. -/
theorem handler_teapot_panics :
    (handler (fun _ => some (0 : Nat)) 418 (Json.obj []) =
      .panicked "We were told we are a teapot")
  ∧ ¬∃ e, handler (fun _ => some (0 : Nat)) 418 (Json.obj []) = .err e := by
  constructor
  · rfl
  · rintro ⟨e, h⟩
    rw [show handler (fun _ => some (0 : Nat)) 418 (Json.obj []) =
      .panicked "We were told we are a teapot" from rfl] at h
    exact HandlerResult.noConfusion h

/-- C2 (amended): the futures event decoder accepts the first variant
of the untagged enum, in declaration order, that parses — and that
order is not sorted by specificity: the array shape is the first
variant, and `IndexPriceEvent` is tried before the more-demanding
`MarkPriceEvent`. -/
theorem futures_decode_first_declared (j : Json) (i : Nat)
    (hi : i < Fut.eventParsers.length)
    (hfail : (Fut.eventParsers.take i).all (fun p => (p j).isNone) = true)
    (hsucc : ((Fut.eventParsers.getD i (fun _ => none)) j).isSome = true) :
    (Fut.parseEvents j = (Fut.eventParsers.getD i (fun _ => none)) j)
  ∧ (Fut.eventParsers.getD 0 (fun _ => none)) j =
      (parseVecOf parseDayTickerEvent j).map Fut.Events.Vec
  ∧ (Fut.eventParsers.getD 8 (fun _ => none)) j =
      (parseIndexPriceEvent j).map Fut.Events.IndexPriceEvent
  ∧ (Fut.eventParsers.getD 9 (fun _ => none)) j =
      (parseMarkPriceEvent j).map Fut.Events.MarkPriceEvent :=
  ⟨firstSome_first_success Fut.eventParsers j i hi hfail hsucc, rfl, rfl, rfl⟩

/-- C2 witness: a mark-price payload fails the first eight futures
variant parsers and is accepted by the ninth (`IndexPriceEvent`), so
the decoder returns that parser's result. -/
theorem futures_decode_first_declared_witness :
    (8 < Fut.eventParsers.length) ∧
    ((Fut.eventParsers.take 8).all (fun p => (p markPricePayload).isNone) = true) ∧
    (((Fut.eventParsers.getD 8 (fun _ => none)) markPricePayload).isSome = true) ∧
    (Fut.parseEvents markPricePayload =
      (Fut.eventParsers.getD 8 (fun _ => none)) markPricePayload) :=
  ⟨by decide, by rfl, by rfl,
   (futures_decode_first_declared markPricePayload 8 (by decide) (by rfl) (by rfl)).1⟩

/-- C2 counterexample: a mark-price payload parses under both
`IndexPriceEvent` and `MarkPriceEvent`, yet decodes to the earlier,
more permissive `IndexPriceEvent` (which also accepts a reduced payload
that `MarkPriceEvent` rejects, so the decoded variant is not the most
specific matching shape); and the empty array decodes via the
first-declared array shape even though a later array shape also
accepts it — the array shapes are not tried last. -/
theorem futures_decode_picks_less_specific :
    (Fut.handle_msg markPricePayload = .ok (.IndexPrice
      ⟨"markPriceUpdate", 1736500000000, "96399.51782129", "96401.00000000"⟩))
  ∧ (parseMarkPriceEvent markPricePayload =
      some ⟨1736500000000, "96450.12345678", 1736510400000, "markPriceUpdate",
        some "96399.51782129", "96401.00000000", "0.00010000", "BTCUSDT"⟩)
  ∧ (parseIndexPriceEvent indexOnlyPayload =
      some ⟨"markPriceUpdate", 1736500000000, "96399.51782129", "96401.00000000"⟩)
  ∧ (parseMarkPriceEvent indexOnlyPayload = none)
  ∧ (Fut.parseEvents (Json.arr []) = some (.Vec []))
  ∧ ((Fut.eventParsers.getD 4 (fun _ => none)) (Json.arr []) =
      some (.VecMiniTickerEvent [])) := by
  refine ⟨?_, rfl, rfl, rfl, rfl, rfl⟩
  rw [Fut.handle_msg, show markPricePayload.get? "data" = none from rfl]
  rw [show Fut.parseEvents markPricePayload = some (.IndexPriceEvent
    ⟨"markPriceUpdate", 1736500000000, "96399.51782129", "96401.00000000"⟩) from rfl]

/-- C3 (amended): the `data`-envelope unwrapping of `handle_msg` has no
constant cap — each envelope triggers exactly one further recursive
call, so a payload nested under `n` envelopes is unwrapped `n` times
and then decoded. -/
theorem handle_msg_unwrap_per_envelope (n : Nat) (v : Json)
    (h : v.get? "data" = none) :
    Spot.handle_msg (nestData n v) = Spot.handle_msg v ∧
    Spot.data_depth (nestData n v) = n := by
  induction n with
  | zero =>
    refine ⟨rfl, ?_⟩
    show Spot.data_depth v = 0
    rw [Spot.data_depth, h]
  | succ n ih =>
    refine ⟨?_, ?_⟩
    · rw [nestData, spot_handle_msg_wrap, ih.1]
    · rw [nestData, spot_data_depth_wrap, ih.2]

/-- C3 witness: a trade payload wrapped in five `data` envelopes is
unwrapped five times. -/
theorem handle_msg_unwrap_per_envelope_witness :
    (tradePayload.get? "data" = none) ∧
    (Spot.handle_msg (nestData 5 tradePayload) = Spot.handle_msg tradePayload ∧
     Spot.data_depth (nestData 5 tradePayload) = 5) :=
  ⟨rfl, handle_msg_unwrap_per_envelope 5 tradePayload rfl⟩

/-- C3 counterexample: a payload with `data` nested five deep recurses
five times — more than the claimed cap of four — and is still fully
unwrapped. -/
theorem handle_msg_no_depth_cap :
    Spot.data_depth (nestData 5 tradePayload) = 5
  ∧ ¬ Spot.data_depth (nestData 5 tradePayload) ≤ 4
  ∧ Spot.handle_msg (nestData 5 tradePayload) = Spot.handle_msg tradePayload := by
  have hbase : Spot.data_depth tradePayload = 0 := by
    rw [Spot.data_depth, show tradePayload.get? "data" = none from rfl]
  have hd : Spot.data_depth (nestData 5 tradePayload) = 5 := by
    simp [nestData, spot_data_depth_wrap, hbase]
  refine ⟨hd, by omega, ?_⟩
  simp [nestData, spot_handle_msg_wrap]

/-- C4: over the empty map with `recv_window = 1234` at injected clock
time `d`, the signed-request string is exactly
`recvWindow=1234&timestamp=<ms>`; and for every map, `recvWindow` is
injected exactly when `recv_window > 0` while `timestamp` is always
injected. -/
theorem build_signed_request_contract (parameters : List (String × String))
    (recv_window : Nat) (d : Duration) :
    (build_signed_request_custom [] 1234 ⟨some d⟩ =
      .ok ("recvWindow=1234&timestamp=" ++ toString (d.secs * 1000 + d.nanos / 1000000)))
  ∧ (build_signed_request_custom parameters recv_window ⟨some d⟩ =
      .ok (build_request (signed_parameters parameters recv_window
        (d.secs * 1000 + d.nanos / 1000000))))
  ∧ ("timestamp", toString (d.secs * 1000 + d.nanos / 1000000)) ∈
      signed_parameters parameters recv_window (d.secs * 1000 + d.nanos / 1000000)
  ∧ (recv_window > 0 → ("recvWindow", toString recv_window) ∈
      signed_parameters parameters recv_window (d.secs * 1000 + d.nanos / 1000000))
  ∧ (recv_window = 0 → "recvWindow" ∉ parameters.map Prod.fst →
      "recvWindow" ∉ (signed_parameters parameters recv_window
        (d.secs * 1000 + d.nanos / 1000000)).map Prod.fst) := by
  refine ⟨?_, rfl, mem_insertSorted_self _ _, ?_, ?_⟩
  · rw [show build_signed_request_custom [] 1234 ⟨some d⟩ =
      Except.ok (build_request (signed_parameters [] 1234
        (d.secs * 1000 + d.nanos / 1000000))) from rfl]
    rw [show signed_parameters [] 1234 (d.secs * 1000 + d.nanos / 1000000) =
      [("recvWindow", "1234"),
       ("timestamp", toString (d.secs * 1000 + d.nanos / 1000000))] from rfl]
    rw [build_request_eq_canonical]
    apply congrArg
    apply String.ext
    simp [canonicalQuery, String.data_append]
  · intro h
    unfold signed_parameters
    rw [if_pos h]
    exact mem_insertSorted_of_mem _ _ _ (mem_insertSorted_self _ _)
      (show ("recvWindow" : String) ≠ "timestamp" from by decide)
  · intro h0 hmem
    unfold signed_parameters
    rw [if_neg (by omega)]
    exact keys_insertSorted_not_mem _ _ _ hmem
      (show ("recvWindow" : String) ≠ "timestamp" from by decide)

/-- C4 witness: at the concrete clock 1499827319 s + 559000000 ns the
fixture string is produced, and `recvWindow` is present when positive. -/
theorem build_signed_request_contract_witness :
    (0 < (1234 : Nat)) ∧
    (build_signed_request_custom [] 1234 ⟨some ⟨1499827319, 559000000⟩⟩ =
      .ok ("recvWindow=1234&timestamp=" ++
        toString (1499827319 * 1000 + 559000000 / 1000000))) ∧
    (("recvWindow", toString (1234 : Nat)) ∈
      signed_parameters [] 1234 (1499827319 * 1000 + 559000000 / 1000000)) :=
  ⟨by decide,
   (build_signed_request_contract [] 1234 ⟨1499827319, 559000000⟩).1,
   (build_signed_request_contract [] 1234 ⟨1499827319, 559000000⟩).2.2.2.1 (by decide)⟩

/-- C5: for a key-sorted parameter map, `build_request` serializes it
as `k1=v1&k2=v2&...` with no trailing separator, and `sign_request`
appends `&signature=<hex>` — the lowercase hex HMAC-SHA256 digest of
the UTF-8 bytes of exactly that serialized string keyed by the secret
— to the transmitted query string. -/
theorem sign_request_canonical (parameters : List (String × String)) (c : Client)
    (endpoint : String)
    (hsorted : parameters.Pairwise (fun a b => strLt a.1 b.1 = true)) :
    build_request parameters = canonicalQuery parameters ∧
    sign_request c endpoint (some (build_request parameters)) =
      (if endpoint.startsWith "http" then "" else c.host) ++ endpoint ++ "?" ++
        (build_request parameters ++ "&signature=" ++
          hexEncode (hmacSha256 (utf8Bytes c.secret_key)
            (utf8Bytes (build_request parameters)))) := by
  refine ⟨build_request_eq_canonical _, ?_⟩
  rfl

/-- C5 witness: a concrete sorted two-entry map. -/
theorem sign_request_canonical_witness :
    ([("a", "1"), ("recvWindow", "5")].Pairwise
      (fun x y : String × String => strLt x.1 y.1 = true)) ∧
    (build_request [("a", "1"), ("recvWindow", "5")] =
      canonicalQuery [("a", "1"), ("recvWindow", "5")] ∧
    sign_request ⟨"k", "sec", "https://api.binance.com"⟩ "/api/v3/order"
        (some (build_request [("a", "1"), ("recvWindow", "5")])) =
      (if ("/api/v3/order" : String).startsWith "http" then ""
        else "https://api.binance.com") ++ "/api/v3/order" ++ "?" ++
        (build_request [("a", "1"), ("recvWindow", "5")] ++ "&signature=" ++
          hexEncode (hmacSha256 (utf8Bytes "sec")
            (utf8Bytes (build_request [("a", "1"), ("recvWindow", "5")]))))) :=
  ⟨by decide, sign_request_canonical _ ⟨"k", "sec", "https://api.binance.com"⟩
    "/api/v3/order" (by decide)⟩

/-- C6: symbol lookup uppercases the name and linearly scans the cached
snapshot — on a fresh cache it returns the first symbol matching the
uppercased name and fails with `Symbol not found` when none matches;
on a stale or never-populated cache it fails with `No cache`. -/
theorem get_symbol_info_spec (g : General) (now : Nat) (s : String) :
    (has_cache g now = false → get_symbol_info g now s = .error "No cache")
  ∧ (∀ info sy, g.cache = some info → has_cache g now = true →
      info.symbols.find? (fun item => item.symbol == strToUpper s) = some sy →
      get_symbol_info g now s = .ok sy)
  ∧ (∀ info, g.cache = some info → has_cache g now = true →
      info.symbols.find? (fun item => item.symbol == strToUpper s) = none →
      get_symbol_info g now s = .error "Symbol not found") := by
  refine ⟨?_, ?_, ?_⟩
  · intro h
    cases hg : g.cache with
    | none => simp [get_symbol_info, exchange_info, hg]
    | some info => simp [get_symbol_info, exchange_info, hg, h]
  · intro info sy hg hc hfind
    simp [get_symbol_info, exchange_info, hg, hc, hfind]
  · intro info hg hc hfind
    simp [get_symbol_info, exchange_info, hg, hc, hfind]

/-- C6 witness: looking up lowercase `bnbbtc` on a fresh cache returns
the `BNBBTC` symbol. -/
theorem get_symbol_info_spec_witness :
    (sampleGeneral.cache = some sampleInfo ∧ has_cache sampleGeneral 1500 = true ∧
      sampleInfo.symbols.find?
        (fun item => item.symbol == strToUpper "bnbbtc") = some sampleSymbol) ∧
    get_symbol_info sampleGeneral 1500 "bnbbtc" = .ok sampleSymbol :=
  ⟨⟨rfl, rfl, rfl⟩,
   (get_symbol_info_spec sampleGeneral 1500 "bnbbtc").2.1 sampleInfo sampleSymbol
     rfl rfl rfl⟩

/-- C7: a snapshot fetched at `t0` is fresh exactly for
`t0 ≤ t < t0 + 600 s`, and the freshness check is false whenever the
cache or the fetch timestamp was never populated. -/
theorem has_cache_ttl (g : General) (info : ExchangeInformation) (t0 t : Nat)
    (hc : g.cache = some info) (hl : g.last_update = some t0) (hle : t0 ≤ t) :
    (has_cache g t = true ↔ t < t0 + CACHE_TTL) ∧
    (∀ (g' : General) (t' : Nat), g'.cache = none ∨ g'.last_update = none →
      has_cache g' t' = false) := by
  constructor
  · simp [has_cache, hc, hl, CACHE_TTL]
    omega
  · intro g' t' h
    rcases h with h | h <;> simp [has_cache, h]

/-- C7 witness: a cache fetched at 1000 s is fresh at 1500 s. -/
theorem has_cache_ttl_witness :
    (sampleGeneral.cache = some sampleInfo ∧ sampleGeneral.last_update = some 1000 ∧
      1000 ≤ 1500) ∧
    (has_cache sampleGeneral 1500 = true ↔ 1500 < 1000 + CACHE_TTL) :=
  ⟨⟨rfl, rfl, by decide⟩,
   (has_cache_ttl sampleGeneral sampleInfo 1000 1500 rfl rfl (by decide)).1⟩

/-- C8: per received frame, `recv` replies to a ping with exactly one
pong write and yields no event; a text frame yields the event
decoder's result; pong, binary and raw frames yield `None` without
error; a server close frame and end-of-stream each yield an error. -/
theorem recv_frame_contract :
    (∀ payload, Spot.recv (some (.ok (.ping payload))) =
      (.ok none, [Spot.Message.pong payload]))
  ∧ (∀ j, Spot.recv (some (.ok (.text j))) =
      (match Spot.handle_msg j with
       | .ok event => (.ok (some event), [])
       | .error e => (.error e, [])))
  ∧ (∀ p, Spot.recv (some (.ok (.pong p))) = (.ok none, []))
  ∧ (∀ b, Spot.recv (some (.ok (.binary b))) = (.ok none, []))
  ∧ (Spot.recv (some (.ok .frame)) = (.ok none, []))
  ∧ (∀ e, Spot.recv (some (.ok (.close e))) =
      (.error ("Disconnected " ++ (match e with | some s => s | none => "None")), []))
  ∧ (Spot.recv none = (.error "Websocket connection closed", [])) :=
  ⟨fun _ => rfl, fun _ => rfl, fun _ => rfl, fun _ => rfl, rfl, fun _ => rfl, rfl⟩

/-- C9: the pong written in reply to a ping carries exactly the ping's
payload bytes. -/
theorem recv_pong_payload_echo (payload : List Nat) :
    (Spot.recv (some (.ok (.ping payload)))).2 = [Spot.Message.pong payload] := rfl

/-- C10: every successful `exchange_info` result reports that the
cache was used — the boolean component is always `true`. -/
theorem exchange_info_cache_flag (g : General) (now : Nat)
    (r : ExchangeInformation × Bool) (h : exchange_info g now = .ok r) :
    r.2 = true := by
  simp only [exchange_info] at h
  split at h
  · split at h
    · injection h with h2
      rw [← h2]
    · exact absurd h (by simp)
  · exact absurd h (by simp)

/-- C10 witness: a fresh cache serves `(snapshot, true)`. -/
theorem exchange_info_cache_flag_witness :
    (exchange_info sampleGeneral 1500 = .ok (sampleInfo, true)) ∧
    (sampleInfo, true).2 = true :=
  ⟨rfl, exchange_info_cache_flag sampleGeneral 1500 (sampleInfo, true) rfl⟩

end Binance
